import Mathlib

/-!
Verification development for the `icfp-2020` alien-language evaluator.

The definitions below are a shallow embedding of the Rust sources:
  * `src/src/ast.rs`               — the `Symbol` value universe and the tree evaluator
  * `src/src/ast/modulations.rs`   — the wire modulation codec
  * `src/src/stack_interpreter.rs` — the stack-machine evaluator

Machine `i64` literals are embedded as unbounded `Int`; the two places where
the concrete 64-bit width is observable to the claims (`i64::pow(2, x as u32)`
in the `Pwr2` reducer) model the wrapping cast and the overflow panic
explicitly.  Rust panics (`unreachable!`, `unimplemented!`, `panic!`, slice
index/arithmetic panics, debug overflow) are embedded as the error value
`RtError.crash`; the evaluators additionally thread a fuel parameter so the
generally non-terminating reduction loops become total Lean functions, with
`RtError.fuel` marking fuel exhaustion (never a behaviour of the source).
-/

set_option maxHeartbeats 4000000
set_option maxRecDepth 10000

namespace Icfp2020

/-- Rust `pub type Number = i64;` (embedded as unbounded `Int`). -/
abbrev Number := Int

/-- The `Symbol` enum of `ast.rs`, extended with the `Closure` variant that
`stack_interpreter.rs` pattern-matches and constructs (the repository mixes
two evolutionary drafts of the enum).  The dead `ApplyPair` variant (never
constructed, `num_args` is `unreachable!` on it) and the image/prelude
variants that only the out-of-scope drawing code touches are omitted. -/
inductive Symbol : Type where
  | Lit (n : Number)
  | Eq
  | Inc
  | Dec
  | Add
  | Var (idx : Nat)
  | Mul
  | Div
  | T
  | F
  | Lt
  | Mod
  | Dem
  | Send
  | Neg
  | Ap
  | S
  | C
  | B
  | Pwr2
  | I
  | Cons
  | Car
  | Cdr
  | Nil
  | IsNil
  | List (symbols : List Symbol)
  | Draw
  | Checkerboard
  | MultipleDraw
  | If0
  | Interact
  | StatelessDraw
  | PartFn (op : Symbol) (args : List Symbol) (remaining : Int)
  | Pair (hd tl : Symbol)
  | Modulated (bits : List Bool)
  | Closure (captured_arg body : Symbol)

mutual

/-- Structural equality of symbols: the `#[derive(PartialEq)]` on `Symbol`
(and on `SymbolCell`, whose `PartialEq` compares the pointed-to symbols). -/
def symbolEq : Symbol → Symbol → Bool
  | .Lit a, .Lit b => a == b
  | .Eq, .Eq => true
  | .Inc, .Inc => true
  | .Dec, .Dec => true
  | .Add, .Add => true
  | .Var a, .Var b => a == b
  | .Mul, .Mul => true
  | .Div, .Div => true
  | .T, .T => true
  | .F, .F => true
  | .Lt, .Lt => true
  | .Mod, .Mod => true
  | .Dem, .Dem => true
  | .Send, .Send => true
  | .Neg, .Neg => true
  | .Ap, .Ap => true
  | .S, .S => true
  | .C, .C => true
  | .B, .B => true
  | .Pwr2, .Pwr2 => true
  | .I, .I => true
  | .Cons, .Cons => true
  | .Car, .Car => true
  | .Cdr, .Cdr => true
  | .Nil, .Nil => true
  | .IsNil, .IsNil => true
  | .List xs, .List ys => symbolEqList xs ys
  | .Draw, .Draw => true
  | .Checkerboard, .Checkerboard => true
  | .MultipleDraw, .MultipleDraw => true
  | .If0, .If0 => true
  | .Interact, .Interact => true
  | .StatelessDraw, .StatelessDraw => true
  | .PartFn o1 a1 r1, .PartFn o2 a2 r2 =>
      symbolEq o1 o2 && symbolEqList a1 a2 && r1 == r2
  | .Pair h1 t1, .Pair h2 t2 => symbolEq h1 h2 && symbolEq t1 t2
  | .Modulated b1, .Modulated b2 => b1 == b2
  | .Closure c1 d1, .Closure c2 d2 => symbolEq c1 c2 && symbolEq d1 d2
  | _, _ => false

/-- Structural equality of symbol vectors (element-wise). -/
def symbolEqList : List Symbol → List Symbol → Bool
  | [], [] => true
  | x :: xs, y :: ys => symbolEq x y && symbolEqList xs ys
  | _, _ => false

end


/-- Runtime failure: `crash` embeds every Rust panic (`unreachable!`,
`unimplemented!`, `panic!`, index/arithmetic panics); `fuel` marks exhaustion
of the Lean-side fuel and corresponds to no behaviour of the source. -/
inductive RtError : Type where
  | crash
  | fuel
  deriving DecidableEq, Repr

abbrev Res (α : Type) := Except RtError α

namespace modulations

/-- Constant `MODULATED_LIST`: the `11` header of pairs and lists. -/
def MODULATED_LIST : List Bool := [true, true]

/-- Constant `NIL`: the `00` encoding of `Nil`. -/
def NIL : List Bool := [false, false]

/-- Constant `ZERO`: the `010` encoding of the number zero. -/
def ZERO : List Bool := [false, true, false]

/-- Constant `SIGN_POSITIVE`: `01`. -/
def SIGN_POSITIVE : List Bool := [false, true]

/-- Constant `SIGN_NEGATIVE`: `10`. -/
def SIGN_NEGATIVE : List Bool := [true, false]

/-- MSB-first binary digits of `a`, zero-padded on the left to `w` bits;
this is the `format!("{:0>width$b}", value)` line of `modulate_number`
(for `a < 2 ^ w`, which `modulate_number` guarantees). -/
def toBits : Nat → Nat → List Bool
  | 0, _ => []
  | w + 1, a => a.testBit w :: toBits w a

/-- Structural version of the source's
`num_bits::<Number>() as u32 - x.leading_zeros() - 1`, i.e. `⌊log₂ x⌋` for
`x > 0` (kernel-reducible, unlike `Nat.log2`). -/
def log_2Aux : Nat → Nat → Nat
  | 0, _ => 0
  | f + 1, n => if 2 ≤ n then log_2Aux f (n / 2) + 1 else 0

/-- Rust `log_2` of `modulate_number` (only invoked on positive arguments). -/
def log_2 (n : Nat) : Nat := log_2Aux n n

/-- Rust `modulate_number`. -/
def modulate_number (value : Number) : List Bool :=
  if value = 0 then ZERO
  else
    let sign := if 0 < value then SIGN_POSITIVE else SIGN_NEGATIVE
    let a := value.natAbs
    let number_of_bits_for_number := log_2 a + 1
    let remainder := if number_of_bits_for_number % 4 ≠ 0 then 1 else 0
    let width := (number_of_bits_for_number / 4 + remainder) * 4
    sign ++ List.replicate (width / 4) true ++ [false] ++
      (if 0 < width then toBits width a else [])

mutual

/-- Rust `modulate` (the `_ => unimplemented!` arm is `crash`). -/
def modulate : Symbol → Res (List Bool)
  | .Lit number => .ok (modulate_number number)
  | .Nil => .ok NIL
  | .List symbols => do
      let body ← modulateList symbols
      .ok (MODULATED_LIST ++ body ++ NIL)
  | .Pair left right => do
      let l ← modulate left
      let r ← modulate right
      .ok (MODULATED_LIST ++ l ++ r)
  | _ => .error .crash

/-- The fold inside `modulate`'s `Symbol::List` arm: concatenation of the
encodings of the elements (no per-element header). -/
def modulateList : List Symbol → Res (List Bool)
  | [] => .ok []
  | s :: rest => do
      let b ← modulate s
      let bs ← modulateList rest
      .ok (b ++ bs)

end

/-- The fold `|num, bit| num << 1 | bit` of `demodulate_number`
(`num` stays non-negative, so shift-or is `2 * num + bit`). -/
def foldBits (bits : List Bool) : Int :=
  bits.foldl (fun num bit => 2 * num + (if bit then 1 else 0)) 0

/-- Rust `demodulate_number` (returns consumed size and the decoded symbol;
a too-short slice makes the `slice[width_bits..bit_size]` index panic). -/
def demodulate_number (sign : Int) (slice : List Bool) : Res (Nat × Symbol) :=
  let width := (slice.takeWhile (fun b => b)).length
  if width = 0 then .ok (1, .Lit 0)
  else
    let width_bits := width + 1
    let bit_size := width_bits + width * 4
    if slice.length < bit_size then .error .crash
    else
      let parsed_value := foldBits ((slice.drop width_bits).take (width * 4))
      .ok (bit_size, .Lit (sign * parsed_value))

/-- Rust `demodulate_slice`.  Note the pair arm returns
`first_size + second_size`, not counting its own two header bits (the number
arm returns `size + 2` and the nil arm `2`). -/
def demodulate_slice : List Bool → Res (Nat × Symbol)
  | b0 :: b1 :: rest =>
    if b0 ≠ b1 then do
      let sign : Int := if b0 = false then 1 else -1
      let (size, symbol) ← demodulate_number sign rest
      .ok (size + 2, symbol)
    else if b0 = true then do
      let (first_size, first_symbol) ← demodulate_slice rest
      let (second_size, second_symbol) ← demodulate_slice (rest.drop first_size)
      .ok (first_size + second_size, .Pair first_symbol second_symbol)
    else
      .ok (2, .Nil)
  | _ => .error .crash
termination_by slice => slice.length
decreasing_by
  · simp; omega
  · simp [List.length_drop]; omega

/-- Rust `demodulate`. -/
def demodulate (value : List Bool) : Res Symbol := do
  .ok (← demodulate_slice value).2

/-- Rust `modulate_to_string`: the bit vector read as `'0'`/`'1'` characters. -/
def modulate_to_string (symbol : Symbol) : Res String := do
  .ok (((← modulate symbol).map (fun b => if b then '1' else '0')).asString)

end modulations

/-- The `Canonicalize` impl for `Symbol` (`ast.rs`): a surface-syntax list is
lowered to the right-nested pair it denotes (`rfold` from `Nil`); everything
else is untouched.  The `SymbolCell` impl delegates to this one. -/
def canonicalize : Symbol → Symbol
  | .List v => v.foldr (fun s acc => .Pair s acc) .Nil
  | s => s

/-- Rust `Symbol::num_args` (an `i8` in the source, embedded as `Int`; the
`remaining` field of `PartFn` can legitimately be negative).  The source's
match has no `Closure` arm; `run_expression` never queries it on a `Closure`,
and the value `0` given here is never observable. -/
def num_args : Symbol → Int
  | .Lit _ => 0
  | .Eq => 2
  | .Inc => 1
  | .Dec => 1
  | .Add => 2
  | .Var _ => 0
  | .Mul => 2
  | .Div => 2
  | .T => 2
  | .F => 2
  | .Lt => 2
  | .Mod => 1
  | .Dem => 1
  | .Send => 1
  | .Neg => 1
  | .Ap => 2
  | .S => 3
  | .C => 3
  | .B => 3
  | .Pwr2 => 1
  | .I => 1
  | .Cons => 2
  | .Car => 1
  | .Cdr => 1
  | .Nil => 0
  | .IsNil => 1
  | .List _ => 0
  | .Draw => 1
  | .Checkerboard => 2
  | .MultipleDraw => 1
  | .If0 => 3
  | .Interact => 3
  | .StatelessDraw => 3
  | .PartFn _ _ i => i
  | .Pair _ _ => 0
  | .Modulated _ => 0
  | .Closure _ _ => 0

/-! The tree evaluator of `ast.rs`.  `Environment` is the
`HashMap<Identifier, Vec<SymbolCell>>` restricted to `Identifier::Var`
keys, the only kind the evaluator ever looks up (`vars[&Identifier::Var(idx)]`). -/

abbrev Environment := Nat → Option (List Symbol)

/-- Rust `op1`: read `operands[operands.len() - 1]` (panics when empty). -/
def op1v (operands : List Symbol) : Res Symbol :=
  match operands.getLast? with
  | some x => .ok x
  | none => .error .crash

/-- Rust `op2`: read `operands[len - 1]` and `operands[len]` for
`len = operands.len() - 1` (index arithmetic panics with fewer than two
operands). -/
def op2v (operands : List Symbol) : Res (Symbol × Symbol) :=
  match operands.reverse with
  | o2 :: o1 :: _ => .ok (o1, o2)
  | _ => .error .crash

/-- Rust `eval_thunks`: an `Ap` pops the function and the argument off the
evaluation stack and freezes them into a `PartFn` thunk; anything else is
passed through.  The stack is a Rust `Vec` pushed/popped at the end, embedded
head-first. -/
def eval_thunks (op : Symbol) (stack : List Symbol) : Res (Symbol × List Symbol) :=
  match op with
  | .Ap =>
      match stack with
      | fn :: arg :: rest => .ok (.PartFn .Ap [fn, arg] (num_args fn - 1), rest)
      | _ => .error .crash
  | op => .ok (op, stack)

/-- The `for inst in lowered_symbols.iter().rev()` loop of `eval`: the input
list here is already reversed. -/
def run_thunks : List Symbol → List Symbol → Res (List Symbol)
  | [], stack => .ok stack
  | inst :: rest, stack =>
      match eval_thunks inst stack with
      | .error e => .error e
      | .ok (val, stack') => run_thunks rest (val :: stack')

/-- Rust `lower_symbols`: canonicalize every instruction. -/
def lower_symbols (symbols : List Symbol) : List Symbol :=
  symbols.map canonicalize

/-- The iterator `(0..=bound).step_by(2)` of the `Checkerboard` reducer. -/
def stepRange (bound : Int) : List Int :=
  if bound < 0 then []
  else (List.range (bound.toNat / 2 + 1)).map (fun i => 2 * (i : Int))

mutual

/-- The `Force` impls for `Symbol` and `SymbolCell` (identical up to `deref`):
pairs are forced recursively in both components, a raw `List` is
`unreachable!`, everything else goes through `force_resolve`. -/
def forceSym (fuel : Nat) (env : Environment) (s : Symbol) : Res Symbol :=
  match fuel with
  | 0 => .error .fuel
  | fl + 1 =>
    match s with
    | .Pair hd tl =>
        match forceSym (fl) env hd with
        | .error e => .error e
        | .ok h =>
            match forceSym (fl) env tl with
            | .error e => .error e
            | .ok t => .ok (.Pair h t)
    | .List _ => .error .crash
    | s => force_resolve (fl) env s

/-- Rust `force_resolve`: the head-reduction loop, with its local iteration
budget `let mut loops = 10000`. -/
def force_resolve (fuel : Nat) (env : Environment) (op : Symbol) : Res Symbol :=
  match fuel with
  | 0 => .error .fuel
  | fl + 1 =>
    force_resolve_loop (fl) env op 10000

/-- One spin of the `loop` in `force_resolve`: `loops` is checked (and the
`panic!("Ahh")` fired) at the top of every iteration, including the one that
returns.  The check is repeated verbatim at the head of every arm of the
match (rather than written once before it) so that Lean generates one
equation per operator shape; the two forms are identical in behaviour. -/
def force_resolve_loop (fuel : Nat) (env : Environment) (op : Symbol) (loops : Nat) :
    Res Symbol :=
  match fuel with
  | 0 => .error .fuel
  | fl + 1 =>
    match op with
    | .PartFn o args remaining =>
        if loops = 0 then .error .crash
        else if remaining = 0 then
          match args with
          | hd :: tl =>
              match apply (fl) env hd tl with
              | .error e => .error e
              | .ok res => force_resolve_loop (fl) env res (loops - 1)
          | [] => .error .crash
        else .ok (.PartFn o args remaining)
    | .Var idx =>
        if loops = 0 then .error .crash
        else
          match env idx with
          | some body =>
              match eval (fl) env body with
              | .error e => .error e
              | .ok res => force_resolve_loop (fl) env res (loops - 1)
          | none => .error .crash
    | .Pair head tail =>
        if loops = 0 then .error .crash
        else
          match forceSym (fl) env head with
          | .error e => .error e
          | .ok h =>
              match forceSym (fl) env tail with
              | .error e => .error e
              | .ok t => .ok (.Pair h t)
    | op => if loops = 0 then .error .crash else .ok op

/-- Rust `eval`: lower the instructions, run the thunk-building pass over
them in reverse, assert a single stack entry remains, and force it. -/
def eval (fuel : Nat) (env : Environment) (instructions : List Symbol) : Res Symbol :=
  match fuel with
  | 0 => .error .fuel
  | fl + 1 =>
    match run_thunks (lower_symbols instructions).reverse [] with
    | .error e => .error e
    | .ok [result] => forceSym (fl) env result
    | .ok _ => .error .crash

/-- Rust `lit1`: force the last operand, demand a literal, apply `f`
(`f` itself may panic, e.g. the `Pwr2` overflow). -/
def lit1 (fuel : Nat) (env : Environment) (operands : List Symbol)
    (f : Number → Res Symbol) : Res Symbol :=
  match fuel with
  | 0 => .error .fuel
  | fl + 1 =>
    match op1v operands with
    | .error e => .error e
    | .ok sym =>
        match forceSym (fl) env sym with
        | .error e => .error e
        | .ok (.Lit x) => f x
        | .ok _ => .error .crash

/-- Rust `lit2`: force the last two operands in order, demand literals,
apply `f`. -/
def lit2 (fuel : Nat) (env : Environment) (operands : List Symbol)
    (f : Number → Number → Res Symbol) : Res Symbol :=
  match fuel with
  | 0 => .error .fuel
  | fl + 1 =>
    match op2v operands with
    | .error e => .error e
    | .ok (o1, o2) =>
        match forceSym (fl) env o1 with
        | .error e => .error e
        | .ok (.Lit x) =>
            match forceSym (fl) env o2 with
            | .error e => .error e
            | .ok (.Lit y) => f x y
            | .ok _ => .error .crash
        | .ok _ =>
            match forceSym (fl) env o2 with
            | .error e => .error e
            | .ok _ => .error .crash

/-- Rust `apply`: the operator dispatch of the tree evaluator.  Every
`unreachable!`/`unimplemented!` arm is `crash`; `i64` division by zero and
the `i64::pow(2, x as u32)` overflow panic are made explicit. -/
def apply (fuel : Nat) (env : Environment) (op : Symbol) (operands : List Symbol) :
    Res Symbol :=
  match fuel with
  | 0 => .error .fuel
  | fl + 1 =>
    match op with
    | .Lit n => .ok (.Lit n)
    | .Eq =>
        match operands with
        | [lhs, rhs] =>
            match forceSym (fl) env lhs with
            | .error e => .error e
            | .ok l =>
                match forceSym (fl) env rhs with
                | .error e => .error e
                | .ok r => .ok (if symbolEq l r then .T else .F)
        | _ => .error .crash
    | .Inc => lit1 (fl) env operands (fun x => .ok (.Lit (x + 1)))
    | .Dec => lit1 (fl) env operands (fun x => .ok (.Lit (x - 1)))
    | .Add => lit2 (fl) env operands (fun x y => .ok (.Lit (x + y)))
    | .Var idx =>
        match env idx with
        | some body => eval (fl) env body
        | none => .error .crash
    | .Mul => lit2 (fl) env operands (fun x y => .ok (.Lit (x * y)))
    | .Div => lit2 (fl) env operands (fun x y =>
        if y = 0 then .error .crash else .ok (.Lit (Int.tdiv x y)))
    | .T =>
        match operands with
        | [t, _] => .ok t
        | _ => .error .crash
    | .F =>
        match operands with
        | [_, f] => .ok f
        | _ => .error .crash
    | .Lt => lit2 (fl) env operands (fun x y =>
        .ok (if x < y then .T else .F))
    | .Mod =>
        match op1v operands with
        | .error e => .error e
        | .ok sym =>
            match forceSym (fl) env sym with
            | .error e => .error e
            | .ok forced =>
                match modulations.modulate forced with
                | .error e => .error e
                | .ok bits => .ok (.Modulated bits)
    | .Dem =>
        match op1v operands with
        | .error e => .error e
        | .ok sym =>
            match forceSym (fl) env sym with
            | .error e => .error e
            | .ok (.Modulated val) => modulations.demodulate val
            | .ok _ => .error .crash
    | .Neg => lit1 (fl) env operands (fun x => .ok (.Lit (-x)))
    | .Pwr2 => lit1 (fl) env operands (fun x =>
        let exp := (x % 4294967296).toNat
        if 63 ≤ exp then .error .crash else .ok (.Lit ((2 : Int) ^ exp)))
    | .I =>
        match operands with
        | [x] => .ok x
        | _ => .error .crash
    | .Cons =>
        match operands with
        | [x, y] => .ok (.Pair x y)
        | _ => .error .crash
    | .Car =>
        match op1v operands with
        | .error e => .error e
        | .ok sym =>
            match forceSym (fl) env sym with
            | .error e => .error e
            | .ok (.Pair v1 _) => .ok v1
            | .ok _ => .error .crash
    | .Cdr =>
        match op1v operands with
        | .error e => .error e
        | .ok sym =>
            match forceSym (fl) env sym with
            | .error e => .error e
            | .ok (.Pair _ v2) => .ok v2
            | .ok _ => .error .crash
    | .Nil => .ok .Nil
    | .IsNil =>
        match op1v operands with
        | .error e => .error e
        | .ok sym =>
            match forceSym (fl) env sym with
            | .error e => .error e
            | .ok forced => .ok (if symbolEq forced .Nil then .T else .F)
    | .List _ => .error .crash
    | .Checkerboard => lit2 (fl) env operands (fun x y =>
        .ok (canonicalize (.List
          ((stepRange x).map (fun a =>
            (stepRange y).map (fun b => Symbol.Pair (.Lit a) (.Lit b)))).flatten)))
    | .If0 =>
        match operands with
        | [literal, x, y] =>
            match forceSym (fl) env literal with
            | .error e => .error e
            | .ok forced => .ok (if symbolEq forced (.Lit 0) then x else y)
        | _ => .error .crash
    | .PartFn _ args remaining =>
        match args with
        | hd :: tl =>
            if remaining < 0 ∨ operands.length < remaining.toNat then .error .crash
            else apply (fl) env hd
              (tl ++ operands.drop (operands.length - remaining.toNat))
        | [] => .error .crash
    | .S =>
        match operands with
        | [x, y, z] =>
            let fn0 := Symbol.PartFn .Ap [x, z] (num_args x - 1)
            let fn1 := Symbol.PartFn .Ap [y, z] (num_args y - 1)
            let remaining := num_args fn0 - 1 + num_args fn1
            .ok (.PartFn .Ap [fn0, fn1] remaining)
        | _ => .error .crash
    | .C =>
        match operands with
        | [x, y, z] =>
            let xz_apply := Symbol.PartFn .Ap [x, z] (num_args x - 1)
            .ok (.PartFn .Ap [xz_apply, y] (num_args x - 2))
        | _ => .error .crash
    | .B =>
        match operands with
        | [x, y, z] =>
            .ok (.PartFn .Ap [x, .PartFn .Ap [y, z] 0] 0)
        | _ => .error .crash
    | _ => .error .crash

end

/-- Rust `eval_instructions` (`ast.rs`): evaluate against an empty
environment, then force once more. -/
def eval_instructions (fuel : Nat) (symbols : List Symbol) : Res Symbol :=
  match fuel with
  | 0 => .error .fuel
  | fl + 1 =>
    match eval (fl) (fun _ => none) symbols with
    | .error e => .error e
    | .ok r => forceSym (fl) (fun _ => none) r

/-- HashMap insertion order of `interpret`: the environment built from a
statement list, a later definition of the same name overwriting an earlier
one. -/
def envOfStatements (statements : List (Nat × List Symbol)) : Environment :=
  fun idx => (statements.reverse.find? (fun st => st.1 = idx)).map (·.2)

/-- Rust `interpret`: populate the environment from the statements, then
evaluate (and force) the last statement's body. -/
def interpret (fuel : Nat) (statements : List (Nat × List Symbol)) : Res Symbol :=
  match fuel with
  | 0 => .error .fuel
  | fl + 1 =>
    match statements.getLast? with
    | none => .error .crash
    | some last =>
        match eval (fl) (envOfStatements statements) last.2 with
        | .error e => .error e
        | .ok s => forceSym (fl) (envOfStatements statements) s

/-! The stack-machine evaluator of `stack_interpreter.rs` (with the
`NullEffects` effects implementation, as in its own `eval_instructions`). -/

/-- Rust `Identifier` (`ast.rs`): names, `:NNN` variables, prelude
arguments. -/
inductive Identifier : Type where
  | Name (s : String)
  | IVar (idx : Nat)
  | PreludeArg (s : String)
  deriving DecidableEq

/-- Rust `StackEnvironment`. -/
abbrev StackEnvironment := Identifier → Option Symbol

/-- HashMap insertion. -/
def insertId (env : StackEnvironment) (id : Identifier) (v : Symbol) :
    StackEnvironment :=
  fun k => if k = id then some v else env k

/-- Rust `VM` (the `effects` field is the do-nothing `NullEffects`). -/
structure VM : Type where
  heap : StackEnvironment
  stack : List Symbol

/-- Rust `VM::pop` (`self.stack.pop().unwrap()` panics on an empty stack). -/
def vmPop (vm : VM) : Res (Symbol × VM) :=
  match vm.stack with
  | top :: rest => .ok (top, { vm with stack := rest })
  | [] => .error .crash

/-- Rust `lower_applies`: an `Ap` captures function and argument into a
`Closure{captured_arg: arg, body: fun}`. -/
def lower_applies (op : Symbol) (stack : List Symbol) : Res (Symbol × List Symbol) :=
  match op with
  | .Ap =>
      match stack with
      | fn :: arg :: rest => .ok (.Closure arg fn, rest)
      | _ => .error .crash
  | op => .ok (op, stack)

/-- The `for inst in lowered_symbols.iter().rev()` loop of
`build_symbol_tree` (input already reversed). -/
def run_lower : List Symbol → List Symbol → Res (List Symbol)
  | [], stack => .ok stack
  | inst :: rest, stack =>
      match lower_applies inst stack with
      | .error e => .error e
      | .ok (val, stack') => run_lower rest (val :: stack')

/-- Rust `build_symbol_tree`: lower, fold the applies, assert a single tree
remains. -/
def build_symbol_tree (instructions : List Symbol) : Res Symbol :=
  match run_lower (lower_symbols instructions).reverse [] with
  | .error e => .error e
  | .ok [tree] => .ok tree
  | .ok _ => .error .crash

/-- The `sym.num_args() as usize` cast of `run_expression`: `num_args` is an
`i8`, so a negative arity sign-extends and wraps to a huge `usize`. -/
def castUsize (i : Int) : Nat := (i % (2 ^ 64)).toNat

mutual

/-- Rust `run_function`: evaluate one head symbol against the VM, pushing the
result.  The `Draw`/`Checkerboard` arms construct and save images through the
effects boundary, outside the language core modelled here; they are embedded
as `crash` (no claim exercises them).  The `Mod` arm calls a VM-aware
`modulations::modulate(&op, vm)` whose source is not in the repository
snapshot; see `stack_modulate`. -/
def run_function (fuel : Nat) (vm : VM) (function : Symbol) : Res VM :=
  match fuel with
  | 0 => .error .fuel
  | fl + 1 => do
        let push : Symbol × VM → Res VM :=
          fun (s, vm') => .ok { vm' with stack := s :: vm'.stack }
        match function with
        | .Var id =>
            match vm.heap (.IVar id) with
            | some v => push (v, vm)
            | none => .error .crash
        | .Lit n => push (.Lit n, vm)
        | .Pair a b => push (.Pair a b, vm)
        | .Modulated bits => push (.Modulated bits, vm)
        | .Inc => push (← stack_lit1 (fl) vm (fun x => .ok (.Lit (x + 1))))
        | .Dec => push (← stack_lit1 (fl) vm (fun x => .ok (.Lit (x - 1))))
        | .Add => push (← stack_lit2 (fl) vm (fun x y => .ok (.Lit (x + y))))
        | .Mul => push (← stack_lit2 (fl) vm (fun x y => .ok (.Lit (x * y))))
        | .Div => push (← stack_lit2 (fl) vm (fun x y =>
            if y = 0 then .error .crash else .ok (.Lit (Int.tdiv x y))))
        | .If0 => do
            let (test, vm1) ← vmPop vm
            let (first, vm2) ← vmPop vm1
            let (second, vm3) ← vmPop vm2
            let (tv, vm4) ← run_expression (fl) vm3 test
            push (if symbolEq tv (.Lit 0) then first else second, vm4)
        | .Eq => do
            let (x, vm1) ← vmPop vm
            let (y, vm2) ← vmPop vm1
            let (xv, vm3) ← run_expression (fl) vm2 x
            let (yv, vm4) ← run_expression (fl) vm3 y
            push (if symbolEq xv yv then .T else .F, vm4)
        | .Lt => push (← stack_lit2 (fl) vm (fun x y =>
            .ok (if x < y then .T else .F)))
        | .T => do
            let (x, vm1) ← vmPop vm
            let (_, vm2) ← vmPop vm1
            push (x, vm2)
        | .F => do
            let (_, vm1) ← vmPop vm
            let (y, vm2) ← vmPop vm1
            push (y, vm2)
        | .Mod => do
            let (op, vm1) ← vmPop vm
            let (bits, vm2) ← stack_modulate (fl) vm1 op
            push (.Modulated bits, vm2)
        | .Dem => do
            let (op, vm1) ← vmPop vm
            let (ov, vm2) ← run_expression (fl) vm1 op
            match ov with
            | .Modulated val =>
                match modulations.demodulate val with
                | .error e => .error e
                | .ok s => push (s, vm2)
            | _ => .error .crash
        | .Neg => push (← stack_lit1 (fl) vm (fun x => .ok (.Lit (-x))))
        | .Pwr2 => push (← stack_lit1 (fl) vm (fun x =>
            let exp := (x % 4294967296).toNat
            if 63 ≤ exp then .error .crash else .ok (.Lit ((2 : Int) ^ exp))))
        | .I => do
            let (op, vm1) ← vmPop vm
            push (op, vm1)
        | .Cons => do
            let (op1, vm1) ← vmPop vm
            let (op2, vm2) ← vmPop vm1
            push (.Pair op1 op2, vm2)
        | .Car => do
            let (op, vm1) ← vmPop vm
            let (ov, vm2) ← run_expression (fl) vm1 op
            match ov with
            | .Pair hd _ => push (← run_expression (fl) vm2 hd)
            | .List _ => .error .crash
            | _ => .error .crash
        | .Cdr => do
            let (op, vm1) ← vmPop vm
            let (ov, vm2) ← run_expression (fl) vm1 op
            match ov with
            | .Pair _ tail => push (tail, vm2)
            | .List _ => .error .crash
            | _ => .error .crash
        | .Nil => push (.Nil, vm)
        | .IsNil => do
            let (op, vm1) ← vmPop vm
            let (ov, vm2) ← run_expression (fl) vm1 op
            push (if symbolEq ov .Nil then .T else .F, vm2)
        | .S => do
            let (x, vm1) ← vmPop vm
            let (y, vm2) ← vmPop vm1
            let (z, vm3) ← vmPop vm2
            push (.Closure (.Closure z y) (.Closure z x), vm3)
        | .Closure arg fn =>
            push (fn, { vm with stack := arg :: vm.stack })
        | .C => do
            let (x, vm1) ← vmPop vm
            let (y, vm2) ← vmPop vm1
            let (z, vm3) ← vmPop vm2
            push (.Closure y (.Closure z x), vm3)
        | .B => do
            let (x, vm1) ← vmPop vm
            let (y, vm2) ← vmPop vm1
            let (z, vm3) ← vmPop vm2
            push (.Closure (.Closure z y) x, vm3)
        | _ => .error .crash

/-- Rust `stack_lit1`: pop one operand, resolve it, demand a literal. -/
def stack_lit1 (fuel : Nat) (vm : VM) (f : Number → Res Symbol) :
    Res (Symbol × VM) :=
  match fuel with
  | 0 => .error .fuel
  | fl + 1 => do
    let (op, vm1) ← vmPop vm
    let (ov, vm2) ← run_expression (fl) vm1 op
    match ov with
    | .Lit x =>
        match f x with
        | .error e => .error e
        | .ok s => .ok (s, vm2)
    | _ => .error .crash

/-- Rust `stack_lit2`: pop two operands, resolve both in order, demand
literals. -/
def stack_lit2 (fuel : Nat) (vm : VM) (f : Number → Number → Res Symbol) :
    Res (Symbol × VM) :=
  match fuel with
  | 0 => .error .fuel
  | fl + 1 => do
    let (op1, vm1) ← vmPop vm
    let (op2, vm2) ← vmPop vm1
    let (v1, vm3) ← run_expression (fl) vm2 op1
    let (v2, vm4) ← run_expression (fl) vm3 op2
    match v1, v2 with
    | .Lit x, .Lit y =>
        match f x y with
        | .error e => .error e
        | .ok s => .ok (s, vm4)
    | _, _ => .error .crash

/-- Modelled from the spec: the `Mod` arm of `run_function` calls a VM-aware
`modulations::modulate(&op, vm)` that does not exist in the repository
snapshot (the in-tree `modulate` takes a single `&Symbol`).  Per §4.3 of the
spec, "`Mod x` → force `x` fully (recursively for pairs) and return
`Modulated(bits)` per §4.4": each node is resolved on demand and encoded with
the §4.4 layout shared with the in-tree codec. -/
def stack_modulate (fuel : Nat) (vm : VM) (s : Symbol) : Res (List Bool × VM) :=
  match fuel with
  | 0 => .error .fuel
  | fl + 1 => do
    let (v, vm1) ← run_expression (fl) vm s
    match v with
    | .Lit n => .ok (modulations.modulate_number n, vm1)
    | .Nil => .ok (modulations.NIL, vm1)
    | .Pair hd tl => do
        let (hb, vm2) ← stack_modulate (fl) vm1 hd
        let (tb, vm3) ← stack_modulate (fl) vm2 tl
        .ok (modulations.MODULATED_LIST ++ hb ++ tb, vm3)
    | _ => .error .crash

/-- The `match sym.deref()` decision at the bottom of `run_expression`'s
loop: continue with a popped `Closure`, continue with a new head that has
enough stack behind it, or stop and rebuild the outstanding closures around
the head (factored out of `run_expression_loop` so Lean generates one
equation per shape of the popped symbol). -/
def run_expression_step (fuel : Nat) (vm : VM) (op : Symbol) (sym : Symbol)
    (count : Nat) : Res (Symbol × VM) :=
  match sym with
  | .Closure a b => run_expression_loop (fuel) vm (.Closure a b) (count + 1)
  | sym =>
      if ¬ symbolEq op sym ∧ castUsize (num_args sym) ≤ vm.stack.length then
        run_expression_loop (fuel) vm sym (count + 1)
      else
        .ok ((vm.stack.take (castUsize (num_args sym))).foldl
              (fun acc el => Symbol.Closure el acc) sym, vm)

/-- Rust `run_expression`: drive `run_function` from a start symbol,
iterating while the popped result is a `Closure` or a new head with enough
stack behind it; `count` is checked against the hard bound 1000 at the top
of every iteration (`panic!()` beyond). -/
def run_expression_loop (fuel : Nat) (vm : VM) (op : Symbol) (count : Nat) :
    Res (Symbol × VM) :=
  match fuel with
  | 0 => .error .fuel
  | fl + 1 =>
    if 1000 < count then .error .crash
    else
      match run_function (fl) vm op with
      | .error e => .error e
      | .ok vm1 =>
          match vmPop vm1 with
          | .error e => .error e
          | .ok (sym, vm2) => run_expression_step (fl) vm2 op sym count

/-- Rust `run_expression` entry (`count` starts at 0). -/
def run_expression (fuel : Nat) (vm : VM) (symbol : Symbol) : Res (Symbol × VM) :=
  match fuel with
  | 0 => .error .fuel
  | fl + 1 =>
    run_expression_loop (fl) vm symbol 0

end

/-- The heap-population loop of `stack_interpret`: build each statement's
tree and insert it (later statements overwrite earlier ones of the same
name). -/
def buildHeap : List (Identifier × List Symbol) → StackEnvironment →
    Res StackEnvironment
  | [], env => .ok env
  | (id, instrs) :: rest, env =>
      match build_symbol_tree instrs with
      | .error e => .error e
      | .ok tree => buildHeap rest (insertId env id tree)

/-- Rust `stack_interpret`: populate the heap, then `run` the last
statement's value on a fresh stack. -/
def stack_interpret (fuel : Nat) (statements : List (Identifier × List Symbol)) :
    Res Symbol :=
  match fuel with
  | 0 => .error .fuel
  | fl + 1 =>
    match statements.getLast? with
    | none => .error .crash
    | some last =>
        match buildHeap statements (fun _ => none) with
        | .error e => .error e
        | .ok heap =>
            match heap last.1 with
            | none => .error .crash
            | some rvalue =>
                match run_expression (fl) ⟨heap, []⟩ rvalue with
                | .error e => .error e
                | .ok (sym, _) => .ok sym

/-- Rust `eval_instructions` (`stack_interpreter.rs`): wrap the instructions
as a single statement named `foo` and interpret. -/
def stack_eval_instructions (fuel : Nat) (symbols : List Symbol) : Res Symbol :=
  stack_interpret fuel [(.Name "foo", symbols)]

/-- The instruction list `ap i (ap i (… (ap i 0)))` with `n` applications of
the identity combinator: a program whose head reduction needs `n` successive
`force_resolve` loop iterations. -/
def iInstrs : Nat → List Symbol
  | 0 => [.Lit 0]
  | n + 1 => .Ap :: .I :: iInstrs n

/-- The thunk graph `eval` builds from `iInstrs n`. -/
def iChain : Nat → Symbol
  | 0 => .Lit 0
  | n + 1 => .PartFn .Ap [.I, iChain n] 0


/-! Helper lemmas. -/

mutual

theorem symbolEq_refl : ∀ a : Symbol, symbolEq a a = true
  | .Lit x => beq_self_eq_true x
  | .Eq | .Inc | .Dec | .Add | .Mul | .Div | .T | .F | .Lt | .Mod | .Dem | .Send
  | .Neg | .Ap | .S | .C | .B | .Pwr2 | .I | .Cons | .Car | .Cdr | .Nil | .IsNil
  | .Draw | .Checkerboard | .MultipleDraw | .If0 | .Interact | .StatelessDraw => rfl
  | .Var x => beq_self_eq_true x
  | .List xs => symbolEqList_refl xs
  | .PartFn o args r => by
      show (symbolEq o o && symbolEqList args args && (r == r)) = true
      rw [symbolEq_refl o, symbolEqList_refl args, beq_self_eq_true]
      rfl
  | .Pair h t => by
      show (symbolEq h h && symbolEq t t) = true
      rw [symbolEq_refl h, symbolEq_refl t]
      rfl
  | .Modulated bs => beq_self_eq_true bs
  | .Closure c d => by
      show (symbolEq c c && symbolEq d d) = true
      rw [symbolEq_refl c, symbolEq_refl d]
      rfl

theorem symbolEqList_refl : ∀ xs : List Symbol, symbolEqList xs xs = true
  | [] => rfl
  | x :: xs => by
      show (symbolEq x x && symbolEqList xs xs) = true
      rw [symbolEq_refl x, symbolEqList_refl xs]
      rfl

end

mutual

theorem symbolEq_sound : ∀ a b : Symbol, symbolEq a b = true → a = b
  | .Lit _, b => by
      cases b <;> intro h <;>
        first
          | exact Bool.noConfusion h
          | exact congrArg Symbol.Lit (eq_of_beq h)
  | .Var _, b => by
      cases b <;> intro h <;>
        first
          | exact Bool.noConfusion h
          | exact congrArg Symbol.Var (eq_of_beq h)
  | .Eq, b => by cases b <;> intro h <;> first | rfl | exact Bool.noConfusion h
  | .Inc, b => by cases b <;> intro h <;> first | rfl | exact Bool.noConfusion h
  | .Dec, b => by cases b <;> intro h <;> first | rfl | exact Bool.noConfusion h
  | .Add, b => by cases b <;> intro h <;> first | rfl | exact Bool.noConfusion h
  | .Mul, b => by cases b <;> intro h <;> first | rfl | exact Bool.noConfusion h
  | .Div, b => by cases b <;> intro h <;> first | rfl | exact Bool.noConfusion h
  | .T, b => by cases b <;> intro h <;> first | rfl | exact Bool.noConfusion h
  | .F, b => by cases b <;> intro h <;> first | rfl | exact Bool.noConfusion h
  | .Lt, b => by cases b <;> intro h <;> first | rfl | exact Bool.noConfusion h
  | .Mod, b => by cases b <;> intro h <;> first | rfl | exact Bool.noConfusion h
  | .Dem, b => by cases b <;> intro h <;> first | rfl | exact Bool.noConfusion h
  | .Send, b => by cases b <;> intro h <;> first | rfl | exact Bool.noConfusion h
  | .Neg, b => by cases b <;> intro h <;> first | rfl | exact Bool.noConfusion h
  | .Ap, b => by cases b <;> intro h <;> first | rfl | exact Bool.noConfusion h
  | .S, b => by cases b <;> intro h <;> first | rfl | exact Bool.noConfusion h
  | .C, b => by cases b <;> intro h <;> first | rfl | exact Bool.noConfusion h
  | .B, b => by cases b <;> intro h <;> first | rfl | exact Bool.noConfusion h
  | .Pwr2, b => by cases b <;> intro h <;> first | rfl | exact Bool.noConfusion h
  | .I, b => by cases b <;> intro h <;> first | rfl | exact Bool.noConfusion h
  | .Cons, b => by cases b <;> intro h <;> first | rfl | exact Bool.noConfusion h
  | .Car, b => by cases b <;> intro h <;> first | rfl | exact Bool.noConfusion h
  | .Cdr, b => by cases b <;> intro h <;> first | rfl | exact Bool.noConfusion h
  | .Nil, b => by cases b <;> intro h <;> first | rfl | exact Bool.noConfusion h
  | .IsNil, b => by cases b <;> intro h <;> first | rfl | exact Bool.noConfusion h
  | .Draw, b => by cases b <;> intro h <;> first | rfl | exact Bool.noConfusion h
  | .Checkerboard, b => by cases b <;> intro h <;> first | rfl | exact Bool.noConfusion h
  | .MultipleDraw, b => by cases b <;> intro h <;> first | rfl | exact Bool.noConfusion h
  | .If0, b => by cases b <;> intro h <;> first | rfl | exact Bool.noConfusion h
  | .Interact, b => by cases b <;> intro h <;> first | rfl | exact Bool.noConfusion h
  | .StatelessDraw, b => by cases b <;> intro h <;> first | rfl | exact Bool.noConfusion h
  | .List xs, b => by
      cases b <;> intro h
      case List ys => exact congrArg Symbol.List (symbolEqList_sound xs ys h)
      all_goals exact Bool.noConfusion h
  | .PartFn o args r, b => by
      cases b <;> intro h
      case PartFn o2 args2 r2 =>
        rw [show symbolEq (.PartFn o args r) (.PartFn o2 args2 r2)
            = (symbolEq o o2 && symbolEqList args args2 && (r == r2)) from rfl,
          Bool.and_eq_true, Bool.and_eq_true] at h
        rw [symbolEq_sound o o2 h.1.1, symbolEqList_sound args args2 h.1.2, eq_of_beq h.2]
      all_goals exact Bool.noConfusion h
  | .Pair h1 t1, b => by
      cases b <;> intro h
      case Pair h2 t2 =>
        rw [show symbolEq (.Pair h1 t1) (.Pair h2 t2)
            = (symbolEq h1 h2 && symbolEq t1 t2) from rfl, Bool.and_eq_true] at h
        rw [symbolEq_sound h1 h2 h.1, symbolEq_sound t1 t2 h.2]
      all_goals exact Bool.noConfusion h
  | .Modulated _, b => by
      cases b <;> intro h <;>
        first
          | exact Bool.noConfusion h
          | exact congrArg Symbol.Modulated (eq_of_beq h)
  | .Closure c1 d1, b => by
      cases b <;> intro h
      case Closure c2 d2 =>
        rw [show symbolEq (.Closure c1 d1) (.Closure c2 d2)
            = (symbolEq c1 c2 && symbolEq d1 d2) from rfl, Bool.and_eq_true] at h
        rw [symbolEq_sound c1 c2 h.1, symbolEq_sound d1 d2 h.2]
      all_goals exact Bool.noConfusion h

theorem symbolEqList_sound : ∀ xs ys : List Symbol, symbolEqList xs ys = true → xs = ys
  | [], [] => fun _ => rfl
  | [], _ :: _ => fun h => Bool.noConfusion h
  | _ :: _, [] => fun h => Bool.noConfusion h
  | x :: xs, y :: ys => by
      intro h
      rw [show symbolEqList (x :: xs) (y :: ys) = (symbolEq x y && symbolEqList xs ys) from rfl,
        Bool.and_eq_true] at h
      rw [symbolEq_sound x y h.1, symbolEqList_sound xs ys h.2]

end


theorem symbolEq_iff (a b : Symbol) : symbolEq a b = true ↔ a = b :=
  ⟨symbolEq_sound a b, fun h => h ▸ symbolEq_refl a⟩

/-- Structural equality on literals is integer equality. -/
theorem symbolEq_lit (a b : Int) : symbolEq (.Lit a) (.Lit b) = (a == b) := rfl

/-- Structural equality on pairs is component-wise. -/
theorem symbolEq_pair (a b c d : Symbol) :
    symbolEq (.Pair a b) (.Pair c d) = (symbolEq a c && symbolEq b d) := rfl

/-- Canonicalization is the identity on every non-`List` token (stated
per-constructor so a symbolic operand's canonicalization stays folded). -/
theorem canonicalize_atoms :
    canonicalize .Ap = .Ap ∧ canonicalize .If0 = .If0 ∧
    (∀ n : Number, canonicalize (.Lit n) = .Lit n) ∧
    (∀ i : Nat, canonicalize (.Var i) = .Var i) := by
  refine ⟨rfl, rfl, fun _ => rfl, fun _ => rfl⟩

/-- Canonicalization never produces a bare `Ap` from a non-`Ap` symbol. -/
theorem canonicalize_ne_ap {y : Symbol} (h : y ≠ .Ap) : canonicalize y ≠ .Ap := by
  cases y <;> simp [canonicalize] at h ⊢
  case List xs => cases xs <;> simp

/-- The `Ap` case of the thunk-building step, spelled out. -/
theorem eval_thunks_ap (fn arg : Symbol) (rest : List Symbol) :
    eval_thunks .Ap (fn :: arg :: rest)
      = .ok (.PartFn .Ap [fn, arg] (num_args fn - 1), rest) := rfl

/-- A non-`Ap` instruction passes through the thunk-building step unchanged. -/
theorem eval_thunks_pass {y : Symbol} (h : y ≠ .Ap) (stack : List Symbol) :
    eval_thunks y stack = .ok (y, stack) := by
  cases y <;> simp [eval_thunks] at h ⊢

/-! Theorems for the claims. -/

/-- C1 (code bug): the specified round-trip `demodulate ∘ modulate = id` on
values built from `Lit`, `Nil` and `Pair` fails on the code.  For the value
`Pair (Pair Nil Nil) (Lit 1)` the decoder returns `Pair (Pair Nil Nil) Nil`:
the pair arm of `demodulate_slice` reports `first_size + second_size` without
its own two `11` header bits (the number arm adds `size + 2`, the nil arm
`2`), so whenever a pair is the first component of another pair the second
component is decoded two bits too early. -/
theorem c1_modulation_roundtrip_bug :
    (modulations.modulate (.Pair (.Pair .Nil .Nil) (.Lit 1))).bind modulations.demodulate
      = .ok (.Pair (.Pair .Nil .Nil) .Nil) ∧
    Symbol.Pair (.Pair .Nil .Nil) .Nil ≠ .Pair (.Pair .Nil .Nil) (.Lit 1) := by
  refine ⟨?_, by simp⟩
  simp [modulations.modulate, modulations.modulate_number, modulations.demodulate,
    modulations.demodulate_slice, modulations.demodulate_number, modulations.foldBits,
    modulations.log_2, modulations.log_2Aux, modulations.toBits, modulations.MODULATED_LIST,
    modulations.NIL, modulations.ZERO, modulations.SIGN_POSITIVE,
    Bind.bind, Except.instMonad, Except.bind, Except.pure, List.takeWhile]

/-- C2 (confirmed): `modulate` produces exactly the specified bit strings for
`Lit 0`, `Lit 1`, `Lit (-1)`, `Lit 256` and `Pair (Lit 1) Nil`, reading the
bit vector as `'0'`/`'1'` characters. -/
theorem c2_modulation_examples :
    modulations.modulate_to_string (.Lit 0) = .ok "010" ∧
    modulations.modulate_to_string (.Lit 1) = .ok "01100001" ∧
    modulations.modulate_to_string (.Lit (-1)) = .ok "10100001" ∧
    modulations.modulate_to_string (.Lit 256) = .ok "011110000100000000" ∧
    modulations.modulate_to_string (.Pair (.Lit 1) .Nil) = .ok "110110000100" :=
  ⟨rfl, rfl, rfl, rfl, rfl⟩

/-- C3 (code bug): modulating a surface-syntax list is NOT the same as
modulating the right-nested pair it denotes.  `modulate`'s `List` arm emits a
single `11` header, the concatenated element encodings and one `00`
terminator, so already for the two-element list `( 0 , 0 )` the bits differ
from those of its canonical form `Pair (Lit 0) (Pair (Lit 0) Nil)` (which
carries a `11` header per `Pair` node); only singleton lists agree. -/
theorem c3_list_modulation_bug :
    modulations.modulate (.List [.Lit 0, .Lit 0])
      = .ok [true, true, false, true, false, false, true, false, false, false] ∧
    modulations.modulate (canonicalize (.List [.Lit 0, .Lit 0]))
      = .ok [true, true, false, true, false, true, true, false, true, false, false, false] ∧
    ([true, true, false, true, false, false, true, false, false, false] : List Bool)
      ≠ [true, true, false, true, false, true, true, false, true, false, false, false] ∧
    ∀ v : Symbol, modulations.modulate (.List [v])
      = modulations.modulate (canonicalize (.List [v])) := by
  refine ⟨rfl, rfl, by simp, fun v => ?_⟩
  cases h : modulations.modulate v <;>
    simp [modulations.modulate, modulations.modulateList, canonicalize, h,
      modulations.NIL, modulations.MODULATED_LIST, Bind.bind, Except.instMonad, Except.bind]

/-- C4 counterexample: `Eq` applied to two structurally equal `Cons` pairs
evaluates to `T`, not `F` — although the forced operands are `Pair`s (not
atoms), equality does extend through pairs, contrary to the claim. -/
theorem c4_eq_pairs_counterexample :
    eval_instructions 40 [.Ap, .Ap, .Eq, .Ap, .Ap, .Cons, .Lit 1, .Lit 2,
      .Ap, .Ap, .Cons, .Lit 1, .Lit 2] = .ok .T ∧
    eval_instructions 40 [.Ap, .Ap, .Cons, .Lit 1, .Lit 2]
      = .ok (.Pair (.Lit 1) (.Lit 2)) :=
  ⟨rfl, rfl⟩

/-- C4 amended: `Eq` deeply forces both operands and returns `T` iff the
forced results are structurally equal symbols: on literals it is integer
equality, and on structurally equal fully-forced pairs it also returns `T`
(equality is extended through pairs). -/
theorem c4_eq_structural_equality :
    (∀ a b : Int, eval_instructions 40 [.Ap, .Ap, .Eq, .Lit a, .Lit b]
        = .ok (if a = b then .T else .F)) ∧
    (∀ a b : Int, eval_instructions 40 [.Ap, .Ap, .Eq,
        .Ap, .Ap, .Cons, .Lit a, .Lit b, .Ap, .Ap, .Cons, .Lit a, .Lit b] = .ok .T) := by
  constructor
  · intro a b
    by_cases h : a = b <;>
      simp [eval_instructions, eval, lower_symbols, canonicalize, run_thunks, eval_thunks,
        num_args, forceSym, force_resolve, force_resolve_loop, apply, lit1, lit2, op1v, op2v,
        symbolEq_lit, h]
  · intro a b
    simp [eval_instructions, eval, lower_symbols, canonicalize, run_thunks, eval_thunks,
      num_args, forceSym, force_resolve, force_resolve_loop, apply, lit1, lit2, op1v, op2v,
      symbolEq_lit, symbolEq_pair]

/-- C5 (confirmed): `If0` forces only its condition.  With condition `Lit 0`
the result is the second operand for EVERY third operand `y` — including
unbound or self-referential ones, which would crash or diverge if forced —
and symmetrically with a non-zero condition the second operand is never
forced.  The self-referential program `:1 = ap ap ap if0 1 :1 3` terminates
with `Lit 3`.  (The hypotheses `y ≠ Ap` / `x ≠ Ap` only exclude the bare
application token, which is not an operand expression.) -/
theorem c5_if0_laziness :
    (∀ y : Symbol, y ≠ .Ap → ∀ a : Int,
      eval_instructions 40 [.Ap, .Ap, .Ap, .If0, .Lit 0, .Lit a, y] = .ok (.Lit a)) ∧
    (∀ x : Symbol, x ≠ .Ap → ∀ c b : Int, c ≠ 0 →
      eval_instructions 40 [.Ap, .Ap, .Ap, .If0, .Lit c, x, .Lit b] = .ok (.Lit b)) ∧
    interpret 60 [(1, [.Ap, .Ap, .Ap, .If0, .Lit 1, .Var 1, .Lit 3])] = .ok (.Lit 3) := by
  refine ⟨fun y hy a => ?_, fun x hx c b hc => ?_, rfl⟩
  · simp [eval_instructions, eval, lower_symbols, canonicalize_atoms, run_thunks,
      eval_thunks_pass (canonicalize_ne_ap hy), eval_thunks_pass, eval_thunks_ap, num_args,
      forceSym, force_resolve, force_resolve_loop, apply, lit1, lit2, op1v, op2v, symbolEq_lit]
  · simp [eval_instructions, eval, lower_symbols, canonicalize_atoms, run_thunks,
      eval_thunks_pass (canonicalize_ne_ap hx), eval_thunks_pass, eval_thunks_ap, num_args,
      forceSym, force_resolve, force_resolve_loop, apply, lit1, lit2, op1v, op2v, symbolEq_lit,
      hc]

/-- C5 witness: the discarded operand may be the unbound `:9` (forcing it
would crash), in both argument positions. -/
theorem c5_if0_laziness_witness :
    eval_instructions 40 [.Ap, .Ap, .Ap, .If0, .Lit 0, .Lit 42, .Var 9] = .ok (.Lit 42) ∧
    eval_instructions 40 [.Ap, .Ap, .Ap, .If0, .Lit 1, .Var 9, .Lit 7] = .ok (.Lit 7) :=
  ⟨c5_if0_laziness.1 (.Var 9) (by simp) 42,
   c5_if0_laziness.2.1 (.Var 9) (by simp) 1 7 (by decide)⟩

/-- C6 (code bug): the three concrete combinator scenarios hold
(`ap ap ap s add inc 1` → `Lit 3`, `ap ap ap c add 1 2` → `Lit 3`, and with
`:0 = 42`, `ap ap ap b inc dec :0` → `Lit 42`), but the universal law
`S x y z = x z (y z)` asserted by the code's own comment fails: for
`ap ap ap s t cons 0` the `S` reducer miscomputes the outstanding arity
(`fn0.num_args() - 1 + fn1.num_args() = 1 ≠ 0`), leaving a stuck partial
application, whereas the direct `ap ap t 0 (ap cons 0)` reduces to `Lit 0`. -/
theorem c6_combinator_laws :
    eval_instructions 60 [.Ap, .Ap, .Ap, .S, .Add, .Inc, .Lit 1] = .ok (.Lit 3) ∧
    eval_instructions 60 [.Ap, .Ap, .Ap, .C, .Add, .Lit 1, .Lit 2] = .ok (.Lit 3) ∧
    interpret 60 [(0, [.Lit 42]), (1, [.Ap, .Ap, .Ap, .B, .Inc, .Dec, .Var 0])]
      = .ok (.Lit 42) ∧
    eval_instructions 60 [.Ap, .Ap, .Ap, .S, .T, .Cons, .Lit 0]
      = .ok (.PartFn .Ap [.PartFn .Ap [.T, .Lit 0] 1, .PartFn .Ap [.Cons, .Lit 0] 1] 1) ∧
    eval_instructions 60 [.Ap, .Ap, .T, .Lit 0, .Ap, .Cons, .Lit 0] = .ok (.Lit 0) :=
  ⟨rfl, rfl, rfl, rfl, rfl⟩

/-- C7 counterexample: `Div x 0` does not return a first-class error value;
the evaluator panics (the embedded `crash`), matching Rust `i64` division by
zero. -/
theorem c7_div_zero_counterexample :
    eval_instructions 40 [.Ap, .Ap, .Div, .Lit 1, .Lit 0] = .error .crash := rfl

/-- C7 amended: `Div x 0` panics for every literal `x` (there is no
first-class `EvalError`); for `y ≠ 0`, `Div x y` is the quotient truncated
toward zero (Rust `i64` division, `Int.tdiv`). -/
theorem c7_div_semantics :
    (∀ x : Int, eval_instructions 40 [.Ap, .Ap, .Div, .Lit x, .Lit 0] = .error .crash) ∧
    (∀ x y : Int, y ≠ 0 →
      eval_instructions 40 [.Ap, .Ap, .Div, .Lit x, .Lit y] = .ok (.Lit (Int.tdiv x y))) := by
  constructor
  · intro x
    simp [eval_instructions, eval, lower_symbols, canonicalize, run_thunks, eval_thunks,
      num_args, forceSym, force_resolve, force_resolve_loop, apply, lit1, lit2, op1v, op2v]
  · intro x y h
    simp [eval_instructions, eval, lower_symbols, canonicalize, run_thunks, eval_thunks,
      num_args, forceSym, force_resolve, force_resolve_loop, apply, lit1, lit2, op1v, op2v, h]

/-- C7 witness: `ap ap div 5 -3 = -1` — truncation toward zero, not floor. -/
theorem c7_div_semantics_witness :
    eval_instructions 40 [.Ap, .Ap, .Div, .Lit 5, .Lit (-3)] = .ok (.Lit (-1)) := by
  have h := c7_div_semantics.2 5 (-3) (by decide)
  simpa using h

/-- C8 counterexample: `Pwr2 63` does not reduce to `Lit (2 ^ 63)`; the
`i64::pow(2, 63 as u32)` computation overflows the 64-bit literal type and
panics. -/
theorem c8_pwr2_counterexample :
    eval_instructions 40 [.Ap, .Pwr2, .Lit 63] = .error .crash := rfl

/-- C8 amended: `Pwr2 n` is `Lit (2 ^ n)` exactly for `0 ≤ n ≤ 62`; for
`63 ≤ n < 2 ^ 32` the power overflows `i64` and panics; a negative exponent
is NOT a clean fatal error: the `n as u32` cast wraps, so
`-4294967233 ≤ n ≤ -1` panics via overflow while `n = -2 ^ 32` silently
yields `Lit 1`. -/
theorem c8_pwr2_semantics :
    (∀ n : Int, 0 ≤ n → n ≤ 62 →
      eval_instructions 40 [.Ap, .Pwr2, .Lit n] = .ok (.Lit (2 ^ n.toNat))) ∧
    (∀ n : Int, 63 ≤ n → n < 4294967296 →
      eval_instructions 40 [.Ap, .Pwr2, .Lit n] = .error .crash) ∧
    (∀ n : Int, -4294967233 ≤ n → n ≤ -1 →
      eval_instructions 40 [.Ap, .Pwr2, .Lit n] = .error .crash) ∧
    eval_instructions 40 [.Ap, .Pwr2, .Lit (-4294967296)] = .ok (.Lit 1) := by
  refine ⟨fun n h0 h62 => ?_, fun n h0 h1 => ?_, fun n h0 h1 => ?_, rfl⟩
  · have hm : n % 4294967296 = n := by omega
    have hlt : ¬ (63 ≤ n.toNat) := by omega
    simp [eval_instructions, eval, lower_symbols, canonicalize, run_thunks, eval_thunks,
      num_args, forceSym, force_resolve, force_resolve_loop, apply, lit1, op1v, hm, hlt]
  · have hm : n % 4294967296 = n := by omega
    have hge : 63 ≤ n.toNat := by omega
    simp [eval_instructions, eval, lower_symbols, canonicalize, run_thunks, eval_thunks,
      num_args, forceSym, force_resolve, force_resolve_loop, apply, lit1, op1v, hm, hge]
  · have hm : n % 4294967296 = n + 4294967296 := by omega
    have hge : 63 ≤ (n + 4294967296).toNat := by omega
    simp [eval_instructions, eval, lower_symbols, canonicalize, run_thunks, eval_thunks,
      num_args, forceSym, force_resolve, force_resolve_loop, apply, lit1, op1v, hm, hge]

/-- C8 witness: `Pwr2 8 = Lit 256` (exact), `Pwr2 63` panics, `Pwr2 (-1)`
panics. -/
theorem c8_pwr2_semantics_witness :
    eval_instructions 40 [.Ap, .Pwr2, .Lit 8] = .ok (.Lit 256) ∧
    eval_instructions 40 [.Ap, .Pwr2, .Lit 100] = .error .crash ∧
    eval_instructions 40 [.Ap, .Pwr2, .Lit (-1)] = .error .crash := by
  refine ⟨?_, ?_, ?_⟩
  · have h := c8_pwr2_semantics.1 8 (by decide) (by decide)
    simpa using h
  · exact c8_pwr2_semantics.2.1 100 (by decide) (by decide)
  · exact c8_pwr2_semantics.2.2.1 (-1) (by decide) (by decide)

theorem run_thunks_append (l1 l2 stack : List Symbol) :
    run_thunks (l1 ++ l2) stack
      = match run_thunks l1 stack with
        | .error e => .error e
        | .ok stack' => run_thunks l2 stack' := by
  induction l1 generalizing stack with
  | nil => simp [run_thunks]
  | cons inst rest ih =>
      simp only [List.cons_append, run_thunks]
      cases h : eval_thunks inst stack with
      | error e => rfl
      | ok vs => exact ih (vs.1 :: vs.2)

theorem lower_iInstrs (n : Nat) : lower_symbols (iInstrs n) = iInstrs n := by
  induction n with
  | zero => rfl
  | succ n ih => simp only [iInstrs, lower_symbols, List.map] at ih ⊢; simp [canonicalize, ih]

theorem thunks_iInstrs (n : Nat) : run_thunks (iInstrs n).reverse [] = .ok [iChain n] := by
  induction n with
  | zero => rfl
  | succ n ih =>
      have hrev : (iInstrs (n + 1)).reverse = (iInstrs n).reverse ++ [.I, .Ap] := by
        simp [iInstrs]
      rw [hrev, run_thunks_append, ih]
      rfl

theorem apply_I (fuel : Nat) (env : Environment) (x : Symbol) (h : fuel ≠ 0) :
    apply fuel env .I [x] = .ok x := by
  cases fuel with
  | zero => exact absurd rfl h
  | succ fl => rfl

theorem frl_atom_ret (fuel loops : Nat) (env : Environment) (n : Int)
    (hf : fuel ≠ 0) (hl : loops ≠ 0) :
    force_resolve_loop fuel env (.Lit n) loops = .ok (.Lit n) := by
  cases fuel with
  | zero => exact absurd rfl hf
  | succ fl => simp [force_resolve_loop, hl]

theorem frl_iChain_ok (n : Nat) :
    ∀ (fuel k : Nat) (env : Environment), n + 2 ≤ fuel → n + 1 ≤ k →
      force_resolve_loop fuel env (iChain n) k = .ok (.Lit 0) := by
  induction n with
  | zero =>
      intro fuel k env hf hk
      exact frl_atom_ret fuel k env 0 (by omega) (by omega)
  | succ n ih =>
      intro fuel k env hf hk
      cases fuel with
      | zero => omega
      | succ fl =>
          show force_resolve_loop (fl + 1) env (.PartFn .Ap [.I, iChain n] 0) k = .ok (.Lit 0)
          simp only [force_resolve_loop]
          rw [if_neg (by omega : ¬ k = 0)]
          simp only [if_true]
          rw [apply_I fl env (iChain n) (by omega)]
          exact ih fl (k - 1) env (by omega) (by omega)

theorem frl_iChain_crash (k : Nat) :
    ∀ (n fuel : Nat) (env : Environment), k < fuel → k ≤ n →
      force_resolve_loop fuel env (iChain n) k = .error .crash := by
  induction k with
  | zero =>
      intro n fuel env hf _
      cases fuel with
      | zero => omega
      | succ fl => cases n <;> simp [iChain, force_resolve_loop]
  | succ k ih =>
      intro n fuel env hf hk
      cases fuel with
      | zero => omega
      | succ fl =>
          cases n with
          | zero => omega
          | succ n =>
              show force_resolve_loop (fl + 1) env (.PartFn .Ap [.I, iChain n] 0) (k + 1)
                = .error .crash
              simp only [force_resolve_loop]
              rw [if_neg (by omega : ¬ k + 1 = 0)]
              simp only [if_true]
              rw [apply_I fl env (iChain n) (by omega)]
              simpa using ih n fl env (by omega) (by omega)

theorem eval_instructions_eq (fuel : Nat) (symbols : List Symbol) (h : fuel ≠ 0) :
    eval_instructions fuel symbols
      = match eval (fuel - 1) (fun _ => none) symbols with
        | .error e => .error e
        | .ok r => forceSym (fuel - 1) (fun _ => none) r := by
  cases fuel with
  | zero => exact absurd rfl h
  | succ fl => rfl

theorem eval_eq (fuel : Nat) (env : Environment) (instructions : List Symbol) (h : fuel ≠ 0) :
    eval fuel env instructions
      = match run_thunks (lower_symbols instructions).reverse [] with
        | .error e => .error e
        | .ok [result] => forceSym (fuel - 1) env result
        | .ok _ => .error .crash := by
  cases fuel with
  | zero => exact absurd rfl h
  | succ fl => rfl

theorem forceSym_iChain (fuel : Nat) (env : Environment) (n : Nat) (h : fuel ≠ 0) :
    forceSym fuel env (iChain n) = force_resolve (fuel - 1) env (iChain n) := by
  cases fuel with
  | zero => exact absurd rfl h
  | succ fl => cases n <;> rfl

theorem forceSym_lit (fuel : Nat) (env : Environment) (n : Int) (h : fuel ≠ 0) :
    forceSym fuel env (.Lit n) = force_resolve (fuel - 1) env (.Lit n) := by
  cases fuel with
  | zero => exact absurd rfl h
  | succ fl => rfl

theorem force_resolve_eq (fuel : Nat) (env : Environment) (op : Symbol) (h : fuel ≠ 0) :
    force_resolve fuel env op = force_resolve_loop (fuel - 1) env op 10000 := by
  cases fuel with
  | zero => exact absurd rfl h
  | succ fl => rfl


theorem eval_iInstrs_ok (n : Nat) (fuel : Nat) (hn : n + 1 ≤ 10000) (hf : n + 5 ≤ fuel) :
    eval fuel (fun _ => none) (iInstrs n) = .ok (.Lit 0) := by
  rw [eval_eq _ _ _ (by omega), lower_iInstrs, thunks_iInstrs]
  show forceSym (fuel - 1) (fun _ => none) (iChain n) = .ok (.Lit 0)
  rw [forceSym_iChain _ _ _ (by omega), force_resolve_eq _ _ _ (by omega)]
  exact frl_iChain_ok n _ _ _ (by omega) (by omega)

theorem eval_instructions_iInstrs_ok (n : Nat) (fuel : Nat)
    (hn : n + 1 ≤ 10000) (hf : n + 6 ≤ fuel) :
    eval_instructions fuel (iInstrs n) = .ok (.Lit 0) := by
  rw [eval_instructions_eq _ _ (by omega), eval_iInstrs_ok n (fuel - 1) hn (by omega)]
  show forceSym (fuel - 1) (fun _ => none) (.Lit 0) = .ok (.Lit 0)
  rw [forceSym_lit _ _ _ (by omega), force_resolve_eq _ _ _ (by omega)]
  exact frl_atom_ret _ _ _ _ (by omega) (by omega)

theorem eval_instructions_iInstrs_crash (fuel : Nat) (hf : 10005 ≤ fuel) :
    eval_instructions fuel (iInstrs 10000) = .error .crash := by
  have hinner : eval (fuel - 1) (fun _ => none) (iInstrs 10000) = .error .crash := by
    rw [eval_eq _ _ _ (by omega), lower_iInstrs, thunks_iInstrs]
    show forceSym (fuel - 1 - 1) (fun _ => none) (iChain 10000) = .error .crash
    rw [forceSym_iChain _ _ _ (by omega), force_resolve_eq _ _ _ (by omega)]
    exact frl_iChain_crash 10000 10000 (fuel - 1 - 1 - 1 - 1) (fun _ => none)
      (by omega) (le_refl 10000)
  rw [eval_instructions_eq _ _ (by omega), hinner]

/-- C9 counterexample: evaluation depth IS limited by a fixed reduction-step
count.  The finite program `ap i (ap i (… (ap i 0)))` with 10000 nested
identity applications needs 10001 iterations of one `force_resolve` loop,
exceeding the hard-coded budget `loops = 10000` and hitting `panic!("Ahh")`
(an abort, not a non-fatal budget error), while the same program with 9999
nestings evaluates to `Lit 0`. -/
theorem c9_step_budget_counterexample :
    eval_instructions 20000 (iInstrs 10000) = .error .crash ∧
    eval_instructions 20000 (iInstrs 9999) = .ok (.Lit 0) :=
  ⟨eval_instructions_iInstrs_crash 20000 (by omega),
   eval_instructions_iInstrs_ok 9999 20000 (by omega) (by omega)⟩

/-- C9 amended: a head reduction of up to 10000 `force_resolve` loop
iterations succeeds (given memory, i.e. any sufficient fuel), and exceeding
the fixed 10000-iteration budget panics — the limit is hard-coded, not
configurable, and exhausting it aborts instead of returning a non-fatal
budget-exhausted error. -/
theorem c9_step_budget_semantics :
    (∀ n fuel : Nat, n ≤ 9999 → n + 6 ≤ fuel →
      eval_instructions fuel (iInstrs n) = .ok (.Lit 0)) ∧
    (∀ fuel : Nat, 10005 ≤ fuel →
      eval_instructions fuel (iInstrs 10000) = .error .crash) :=
  ⟨fun n fuel hn hf => eval_instructions_iInstrs_ok n fuel (by omega) hf,
   fun fuel hf => eval_instructions_iInstrs_crash fuel hf⟩

/-- C9 witness: three nested `ap i` evaluate with fuel 9; the 10000-deep
chain panics at exactly the budget. -/
theorem c9_step_budget_semantics_witness :
    eval_instructions 9 (iInstrs 3) = .ok (.Lit 0) ∧
    eval_instructions 10005 (iInstrs 10000) = .error .crash :=
  ⟨c9_step_budget_semantics.1 3 9 (by decide) (by decide),
   c9_step_budget_semantics.2 10005 (by decide)⟩

/-- C10 counterexample: the two evaluators do not return the same `Symbol`
on common-operator programs that evaluate without error.  `ap i (ap add 1)`
is a partial application: the tree evaluator returns it as a `PartFn` thunk,
the stack interpreter as a `Closure`.  Worse, the disagreement is semantic:
for `ap ap ap s t cons 0` the tree evaluator returns a stuck partial
application (its `S` reducer miscounts the outstanding arity) while the
stack interpreter reduces to `Lit 0`. -/
theorem c10_partial_application_counterexample :
    eval_instructions 40 [.Ap, .I, .Ap, .Add, .Lit 1] = .ok (.PartFn .Ap [.Add, .Lit 1] 1) ∧
    stack_eval_instructions 40 [.Ap, .I, .Ap, .Add, .Lit 1] = .ok (.Closure (.Lit 1) .Add) ∧
    Symbol.PartFn .Ap [.Add, .Lit 1] 1 ≠ .Closure (.Lit 1) .Add ∧
    eval_instructions 60 [.Ap, .Ap, .Ap, .S, .T, .Cons, .Lit 0]
      = .ok (.PartFn .Ap [.PartFn .Ap [.T, .Lit 0] 1, .PartFn .Ap [.Cons, .Lit 0] 1] 1) ∧
    stack_eval_instructions 60 [.Ap, .Ap, .Ap, .S, .T, .Cons, .Lit 0] = .ok (.Lit 0) := by
  refine ⟨rfl, ?_, by simp, rfl, ?_⟩ <;>
    simp [stack_eval_instructions, stack_interpret, buildHeap, build_symbol_tree, run_lower,
      lower_applies, lower_symbols, canonicalize, insertId, run_expression,
      run_expression_loop, run_expression_step, run_function, stack_lit1, stack_lit2, vmPop,
      castUsize, num_args, symbolEq_iff, Bind.bind, Except.instMonad, Except.bind]

/-- C10 amended: the two evaluators agree (and succeed) on fully-applied
applications of the first-order operators to literal operands — `Inc`, `Dec`,
`Neg`, `Add`, `Mul`, `Div` (non-zero divisor), `Eq`, `Lt`, `T`, `F`, `I`,
`Cons`, `Car`, `Cdr`, `IsNil`, `If0` and `Pwr2` (exponent 0..62) — but they
represent partial applications differently (`PartFn` vs `Closure`), so
agreement does not extend to programs whose result is a partial
application. -/
theorem c10_evaluator_agreement :
    (∀ x : Int, eval_instructions 60 [.Ap, .Inc, .Lit x] = .ok (.Lit (x + 1)) ∧
      stack_eval_instructions 60 [.Ap, .Inc, .Lit x] = .ok (.Lit (x + 1))) ∧
    (∀ x : Int, eval_instructions 60 [.Ap, .Dec, .Lit x] = .ok (.Lit (x - 1)) ∧
      stack_eval_instructions 60 [.Ap, .Dec, .Lit x] = .ok (.Lit (x - 1))) ∧
    (∀ x : Int, eval_instructions 60 [.Ap, .Neg, .Lit x] = .ok (.Lit (-x)) ∧
      stack_eval_instructions 60 [.Ap, .Neg, .Lit x] = .ok (.Lit (-x))) ∧
    (∀ x y : Int, eval_instructions 60 [.Ap, .Ap, .Add, .Lit x, .Lit y] = .ok (.Lit (x + y)) ∧
      stack_eval_instructions 60 [.Ap, .Ap, .Add, .Lit x, .Lit y] = .ok (.Lit (x + y))) ∧
    (∀ x y : Int, eval_instructions 60 [.Ap, .Ap, .Mul, .Lit x, .Lit y] = .ok (.Lit (x * y)) ∧
      stack_eval_instructions 60 [.Ap, .Ap, .Mul, .Lit x, .Lit y] = .ok (.Lit (x * y))) ∧
    (∀ x y : Int, y ≠ 0 →
      eval_instructions 60 [.Ap, .Ap, .Div, .Lit x, .Lit y] = .ok (.Lit (Int.tdiv x y)) ∧
      stack_eval_instructions 60 [.Ap, .Ap, .Div, .Lit x, .Lit y] = .ok (.Lit (Int.tdiv x y))) ∧
    (∀ x y : Int,
      eval_instructions 60 [.Ap, .Ap, .Eq, .Lit x, .Lit y] = .ok (if x = y then .T else .F) ∧
      stack_eval_instructions 60 [.Ap, .Ap, .Eq, .Lit x, .Lit y]
        = .ok (if x = y then .T else .F)) ∧
    (∀ x y : Int,
      eval_instructions 60 [.Ap, .Ap, .Lt, .Lit x, .Lit y] = .ok (if x < y then .T else .F) ∧
      stack_eval_instructions 60 [.Ap, .Ap, .Lt, .Lit x, .Lit y]
        = .ok (if x < y then .T else .F)) ∧
    (∀ x y : Int, eval_instructions 60 [.Ap, .Ap, .T, .Lit x, .Lit y] = .ok (.Lit x) ∧
      stack_eval_instructions 60 [.Ap, .Ap, .T, .Lit x, .Lit y] = .ok (.Lit x)) ∧
    (∀ x y : Int, eval_instructions 60 [.Ap, .Ap, .F, .Lit x, .Lit y] = .ok (.Lit y) ∧
      stack_eval_instructions 60 [.Ap, .Ap, .F, .Lit x, .Lit y] = .ok (.Lit y)) ∧
    (∀ x : Int, eval_instructions 60 [.Ap, .I, .Lit x] = .ok (.Lit x) ∧
      stack_eval_instructions 60 [.Ap, .I, .Lit x] = .ok (.Lit x)) ∧
    (∀ x y : Int,
      eval_instructions 60 [.Ap, .Ap, .Cons, .Lit x, .Lit y] = .ok (.Pair (.Lit x) (.Lit y)) ∧
      stack_eval_instructions 60 [.Ap, .Ap, .Cons, .Lit x, .Lit y]
        = .ok (.Pair (.Lit x) (.Lit y))) ∧
    (∀ x y : Int,
      eval_instructions 60 [.Ap, .Car, .Ap, .Ap, .Cons, .Lit x, .Lit y] = .ok (.Lit x) ∧
      stack_eval_instructions 60 [.Ap, .Car, .Ap, .Ap, .Cons, .Lit x, .Lit y] = .ok (.Lit x)) ∧
    (∀ x y : Int,
      eval_instructions 60 [.Ap, .Cdr, .Ap, .Ap, .Cons, .Lit x, .Lit y] = .ok (.Lit y) ∧
      stack_eval_instructions 60 [.Ap, .Cdr, .Ap, .Ap, .Cons, .Lit x, .Lit y] = .ok (.Lit y)) ∧
    (eval_instructions 60 [.Ap, .IsNil, .Nil] = .ok .T ∧
      stack_eval_instructions 60 [.Ap, .IsNil, .Nil] = .ok .T) ∧
    (∀ x : Int, eval_instructions 60 [.Ap, .IsNil, .Lit x] = .ok .F ∧
      stack_eval_instructions 60 [.Ap, .IsNil, .Lit x] = .ok .F) ∧
    (∀ x y : Int,
      eval_instructions 60 [.Ap, .Ap, .Ap, .If0, .Lit 0, .Lit x, .Lit y] = .ok (.Lit x) ∧
      stack_eval_instructions 60 [.Ap, .Ap, .Ap, .If0, .Lit 0, .Lit x, .Lit y]
        = .ok (.Lit x)) ∧
    (∀ c x y : Int, c ≠ 0 →
      eval_instructions 60 [.Ap, .Ap, .Ap, .If0, .Lit c, .Lit x, .Lit y] = .ok (.Lit y) ∧
      stack_eval_instructions 60 [.Ap, .Ap, .Ap, .If0, .Lit c, .Lit x, .Lit y]
        = .ok (.Lit y)) ∧
    (∀ n : Int, 0 ≤ n → n ≤ 62 →
      eval_instructions 60 [.Ap, .Pwr2, .Lit n] = .ok (.Lit (2 ^ n.toNat)) ∧
      stack_eval_instructions 60 [.Ap, .Pwr2, .Lit n] = .ok (.Lit (2 ^ n.toNat))) := by
  refine ⟨fun x => ⟨rfl, ?_⟩, fun x => ⟨rfl, ?_⟩, fun x => ⟨rfl, ?_⟩,
    fun x y => ⟨rfl, ?_⟩, fun x y => ⟨rfl, ?_⟩, fun x y hy => ⟨?_, ?_⟩,
    fun x y => ⟨?_, ?_⟩, fun x y => ⟨?_, ?_⟩, fun x y => ⟨rfl, ?_⟩,
    fun x y => ⟨rfl, ?_⟩, fun x => ⟨rfl, ?_⟩, fun x y => ⟨rfl, ?_⟩,
    fun x y => ⟨rfl, ?_⟩, fun x y => ⟨rfl, ?_⟩, ⟨rfl, ?_⟩, fun x => ⟨rfl, ?_⟩,
    fun x y => ⟨rfl, ?_⟩, fun c x y hc => ⟨?_, ?_⟩, fun n h0 h62 => ⟨?_, ?_⟩⟩
  case _ => -- stack Inc
    simp [stack_eval_instructions, stack_interpret, buildHeap, build_symbol_tree, run_lower,
      lower_applies, lower_symbols, canonicalize, insertId, run_expression,
      run_expression_loop, run_expression_step, run_function, stack_lit1, stack_lit2, vmPop,
      castUsize, num_args, symbolEq_iff, Bind.bind, Except.instMonad, Except.bind]
  case _ => -- stack Dec
    simp [stack_eval_instructions, stack_interpret, buildHeap, build_symbol_tree, run_lower,
      lower_applies, lower_symbols, canonicalize, insertId, run_expression,
      run_expression_loop, run_expression_step, run_function, stack_lit1, stack_lit2, vmPop,
      castUsize, num_args, symbolEq_iff, Bind.bind, Except.instMonad, Except.bind]
  case _ => -- stack Neg
    simp [stack_eval_instructions, stack_interpret, buildHeap, build_symbol_tree, run_lower,
      lower_applies, lower_symbols, canonicalize, insertId, run_expression,
      run_expression_loop, run_expression_step, run_function, stack_lit1, stack_lit2, vmPop,
      castUsize, num_args, symbolEq_iff, Bind.bind, Except.instMonad, Except.bind]
  case _ => -- stack Add
    simp [stack_eval_instructions, stack_interpret, buildHeap, build_symbol_tree, run_lower,
      lower_applies, lower_symbols, canonicalize, insertId, run_expression,
      run_expression_loop, run_expression_step, run_function, stack_lit1, stack_lit2, vmPop,
      castUsize, num_args, symbolEq_iff, Bind.bind, Except.instMonad, Except.bind]
  case _ => -- stack Mul
    simp [stack_eval_instructions, stack_interpret, buildHeap, build_symbol_tree, run_lower,
      lower_applies, lower_symbols, canonicalize, insertId, run_expression,
      run_expression_loop, run_expression_step, run_function, stack_lit1, stack_lit2, vmPop,
      castUsize, num_args, symbolEq_iff, Bind.bind, Except.instMonad, Except.bind]
  case _ => -- ast Div
    simp [eval_instructions, eval, lower_symbols, canonicalize, run_thunks, eval_thunks,
      num_args, forceSym, force_resolve, force_resolve_loop, apply, lit1, lit2, op1v, op2v,
      hy]
  case _ => -- stack Div
    simp [stack_eval_instructions, stack_interpret, buildHeap, build_symbol_tree, run_lower,
      lower_applies, lower_symbols, canonicalize, insertId, run_expression,
      run_expression_loop, run_expression_step, run_function, stack_lit1, stack_lit2, vmPop,
      castUsize, num_args, symbolEq_iff, Bind.bind, Except.instMonad, Except.bind, hy]
  case _ => -- ast Eq
    by_cases h : x = y <;>
      simp [eval_instructions, eval, lower_symbols, canonicalize, run_thunks, eval_thunks,
        num_args, forceSym, force_resolve, force_resolve_loop, apply, lit1, lit2, op1v, op2v,
        symbolEq_lit, h]
  case _ => -- stack Eq
    by_cases h : x = y <;>
      simp [stack_eval_instructions, stack_interpret, buildHeap, build_symbol_tree, run_lower,
        lower_applies, lower_symbols, canonicalize, insertId, run_expression,
        run_expression_loop, run_expression_step, run_function, stack_lit1, stack_lit2, vmPop,
        castUsize, num_args, symbolEq_iff, Bind.bind, Except.instMonad, Except.bind, h]
  case _ => -- ast Lt
    by_cases h : x < y <;>
      simp [eval_instructions, eval, lower_symbols, canonicalize, run_thunks, eval_thunks,
        num_args, forceSym, force_resolve, force_resolve_loop, apply, lit1, lit2, op1v, op2v,
        h]
  case _ => -- stack Lt
    by_cases h : x < y <;>
      simp [stack_eval_instructions, stack_interpret, buildHeap, build_symbol_tree, run_lower,
        lower_applies, lower_symbols, canonicalize, insertId, run_expression,
        run_expression_loop, run_expression_step, run_function, stack_lit1, stack_lit2, vmPop,
        castUsize, num_args, symbolEq_iff, Bind.bind, Except.instMonad, Except.bind, h]
  case _ => -- stack T
    simp [stack_eval_instructions, stack_interpret, buildHeap, build_symbol_tree, run_lower,
      lower_applies, lower_symbols, canonicalize, insertId, run_expression,
      run_expression_loop, run_expression_step, run_function, stack_lit1, stack_lit2, vmPop,
      castUsize, num_args, symbolEq_iff, Bind.bind, Except.instMonad, Except.bind]
  case _ => -- stack F
    simp [stack_eval_instructions, stack_interpret, buildHeap, build_symbol_tree, run_lower,
      lower_applies, lower_symbols, canonicalize, insertId, run_expression,
      run_expression_loop, run_expression_step, run_function, stack_lit1, stack_lit2, vmPop,
      castUsize, num_args, symbolEq_iff, Bind.bind, Except.instMonad, Except.bind]
  case _ => -- stack I
    simp [stack_eval_instructions, stack_interpret, buildHeap, build_symbol_tree, run_lower,
      lower_applies, lower_symbols, canonicalize, insertId, run_expression,
      run_expression_loop, run_expression_step, run_function, stack_lit1, stack_lit2, vmPop,
      castUsize, num_args, symbolEq_iff, Bind.bind, Except.instMonad, Except.bind]
  case _ => -- stack Cons
    simp [stack_eval_instructions, stack_interpret, buildHeap, build_symbol_tree, run_lower,
      lower_applies, lower_symbols, canonicalize, insertId, run_expression,
      run_expression_loop, run_expression_step, run_function, stack_lit1, stack_lit2, vmPop,
      castUsize, num_args, symbolEq_iff, Bind.bind, Except.instMonad, Except.bind]
  case _ => -- stack Car
    simp [stack_eval_instructions, stack_interpret, buildHeap, build_symbol_tree, run_lower,
      lower_applies, lower_symbols, canonicalize, insertId, run_expression,
      run_expression_loop, run_expression_step, run_function, stack_lit1, stack_lit2, vmPop,
      castUsize, num_args, symbolEq_iff, Bind.bind, Except.instMonad, Except.bind]
  case _ => -- stack Cdr
    simp [stack_eval_instructions, stack_interpret, buildHeap, build_symbol_tree, run_lower,
      lower_applies, lower_symbols, canonicalize, insertId, run_expression,
      run_expression_loop, run_expression_step, run_function, stack_lit1, stack_lit2, vmPop,
      castUsize, num_args, symbolEq_iff, Bind.bind, Except.instMonad, Except.bind]
  case _ => -- stack IsNil Nil
    simp [stack_eval_instructions, stack_interpret, buildHeap, build_symbol_tree, run_lower,
      lower_applies, lower_symbols, canonicalize, insertId, run_expression,
      run_expression_loop, run_expression_step, run_function, stack_lit1, stack_lit2, vmPop,
      castUsize, num_args, symbolEq_iff, Bind.bind, Except.instMonad, Except.bind]
  case _ => -- stack IsNil Lit
    simp [stack_eval_instructions, stack_interpret, buildHeap, build_symbol_tree, run_lower,
      lower_applies, lower_symbols, canonicalize, insertId, run_expression,
      run_expression_loop, run_expression_step, run_function, stack_lit1, stack_lit2, vmPop,
      castUsize, num_args, symbolEq_iff, Bind.bind, Except.instMonad, Except.bind]
  case _ => -- stack If0 zero
    simp [stack_eval_instructions, stack_interpret, buildHeap, build_symbol_tree, run_lower,
      lower_applies, lower_symbols, canonicalize, insertId, run_expression,
      run_expression_loop, run_expression_step, run_function, stack_lit1, stack_lit2, vmPop,
      castUsize, num_args, symbolEq_iff, Bind.bind, Except.instMonad, Except.bind]
  case _ => -- ast If0 nonzero
    simp [eval_instructions, eval, lower_symbols, canonicalize, run_thunks, eval_thunks,
      num_args, forceSym, force_resolve, force_resolve_loop, apply, lit1, lit2, op1v, op2v,
      symbolEq_lit, hc]
  case _ => -- stack If0 nonzero
    simp [stack_eval_instructions, stack_interpret, buildHeap, build_symbol_tree, run_lower,
      lower_applies, lower_symbols, canonicalize, insertId, run_expression,
      run_expression_loop, run_expression_step, run_function, stack_lit1, stack_lit2, vmPop,
      castUsize, num_args, symbolEq_iff, Bind.bind, Except.instMonad, Except.bind, hc]
  case _ => -- ast Pwr2
    have hm : n % 4294967296 = n := by omega
    have hlt : ¬ (63 ≤ n.toNat) := by omega
    simp [eval_instructions, eval, lower_symbols, canonicalize, run_thunks, eval_thunks,
      num_args, forceSym, force_resolve, force_resolve_loop, apply, lit1, op1v, hm, hlt]
  case _ => -- stack Pwr2
    have hm : n % 4294967296 = n := by omega
    have hlt : ¬ (63 ≤ n.toNat) := by omega
    simp [stack_eval_instructions, stack_interpret, buildHeap, build_symbol_tree, run_lower,
      lower_applies, lower_symbols, canonicalize, insertId, run_expression,
      run_expression_loop, run_expression_step, run_function, stack_lit1, stack_lit2, vmPop,
      castUsize, num_args, symbolEq_iff, Bind.bind, Except.instMonad, Except.bind, hm, hlt]

/-- C10 witness: both evaluators give `Lit 3` for `ap ap div 7 2`,
`Lit 9` for `ap ap ap if0 5 8 9`, and `Lit 256` for `ap pwr2 8`. -/
theorem c10_evaluator_agreement_witness :
    (eval_instructions 60 [.Ap, .Ap, .Div, .Lit 7, .Lit 2] = .ok (.Lit 3) ∧
      stack_eval_instructions 60 [.Ap, .Ap, .Div, .Lit 7, .Lit 2] = .ok (.Lit 3)) ∧
    (eval_instructions 60 [.Ap, .Ap, .Ap, .If0, .Lit 5, .Lit 8, .Lit 9] = .ok (.Lit 9) ∧
      stack_eval_instructions 60 [.Ap, .Ap, .Ap, .If0, .Lit 5, .Lit 8, .Lit 9]
        = .ok (.Lit 9)) ∧
    (eval_instructions 60 [.Ap, .Pwr2, .Lit 8] = .ok (.Lit 256) ∧
      stack_eval_instructions 60 [.Ap, .Pwr2, .Lit 8] = .ok (.Lit 256)) := by
  refine ⟨?_, ?_, ?_⟩
  · have h := c10_evaluator_agreement.2.2.2.2.2.1 7 2 (by decide)
    have ht : Int.tdiv 7 2 = 3 := by decide
    rw [ht] at h
    exact h
  · exact c10_evaluator_agreement.2.2.2.2.2.2.2.2.2.2.2.2.2.2.2.2.2.1 5 8 9 (by decide)
  · have h := c10_evaluator_agreement.2.2.2.2.2.2.2.2.2.2.2.2.2.2.2.2.2.2 8
      (by decide) (by decide)
    have ht : (2 : Int) ^ (8 : Int).toNat = 256 := by decide
    rw [ht] at h
    exact h

end Icfp2020
